import Mathlib

/-!
Shallow embedding of the IMF gadget API (akumarujon/imf-gadget-api).

The repository is a TypeScript Express service over a Postgres table of
gadgets `{id, name, status}` and a table of users `{id, username, password}`
(src/src/schema.ts).  The business logic lives in src/src/controllers.ts
(pure read/filter/insert/update sequences against the store) and
src/src/handlers.ts (request handlers that render JSON responses).

We model the two stores as lists of records and each controller as a pure
function from the store (plus its arguments) to the new store and the value
it returns.  Request handlers are modelled as functions returning the list
of responses the handler attempts to emit, in order; in Express only the
first of these reaches the client (later `res.*` calls fail with
ERR_HTTP_HEADERS_SENT), so the head of the list is the externally visible
response.  Statuses are kept as raw strings exactly as the code does: the
`varchar("status")` column and all comparisons in controllers.ts operate on
strings, the four-value enumeration existing only as a TypeScript
compile-time annotation.
-/

namespace IMF

/-- Gadget record, from src/src/schema.ts: `gadgets` table with uuid `id`,
varchar `name`, varchar `status`. -/
structure Gadget where
  id : String
  name : String
  status : String
deriving DecidableEq

/-- The gadget store: the rows of the `gadgets` table, in insertion order. -/
abbrev Store := List Gadget

/-- User record, from src/src/schema.ts: `users` table.  The db-generated
uuid primary key is never read by any controller, so it is omitted here. -/
structure UserRec where
  username : String
  password : String
deriving DecidableEq

/-- Result shape `{ ok: boolean; message: string }` returned by the
controllers in src/src/controllers.ts. -/
structure OpResult where
  ok : Bool
  message : String
deriving DecidableEq

/-- JavaScript truthiness of an optional request-body string field:
`undefined` and the empty string are falsy. -/
def jsTruthy : Option String → Bool
  | none => false
  | some s => s ≠ ""

/-- From src/utils.ts: `text.charAt(0).toUpperCase() + text.slice(1).toLowerCase()`.
(`Char.toUpper`/`Char.toLower` agree with JavaScript on the ASCII strings
used throughout this API.) -/
def capitalize (text : String) : String :=
  match text.toList with
  | [] => ""
  | c :: rest => String.mk (c.toUpper :: rest.map Char.toLower)

/-- From src/utils.ts: `text == capitalize(text)`. -/
def isCapitalized (text : String) : Bool :=
  text == capitalize text

/-- Case-insensitive hexadecimal digit. -/
def isHexDigit (c : Char) : Bool :=
  (decide ('0' ≤ c) && decide (c ≤ '9')) ||
  (decide ('a' ≤ c) && decide (c ≤ 'f')) ||
  (decide ('A' ≤ c) && decide (c ≤ 'F'))

/-- Split a character list at every dash. -/
def splitDash : List Char → List (List Char)
  | [] => [[]]
  | c :: rest =>
    if c = '-' then [] :: splitDash rest
    else
      match splitDash rest with
      | [] => [[c]]
      | p :: ps => (c :: p) :: ps

/-- `validate` from the npm `uuid` package (imported by controllers.ts as
`isValidUUID`): the case-insensitive regex
`xxxxxxxx-xxxx-Vxxx-Rxxx-xxxxxxxxxxxx` over hex digits with version
nibble V in 1..8 and variant nibble R in {8,9,a,b}, or the nil or max
UUID — transcribed over the character list, with case-insensitivity
folded into the character classes and the nil/max alternatives expressed
as all-zero / all-f strings of the same dashed shape. -/
def isValidUUID (s : String) : Bool :=
  match splitDash s.toList with
  | [a, b, c, d, e] =>
    (a.length == 8 && b.length == 4 && c.length == 4 && d.length == 4 &&
     e.length == 12 &&
     a.all isHexDigit && b.all isHexDigit && c.all isHexDigit &&
     d.all isHexDigit && e.all isHexDigit) &&
    ((match c, d with
      | v :: _, w :: _ =>
        (decide ('1' ≤ v) && decide (v ≤ '8')) &&
        (w == '8' || w == '9' || w == 'a' || w == 'b' || w == 'A' || w == 'B')
      | _, _ => false) ||
     (a ++ b ++ c ++ d ++ e).all (fun x => x == '0') ||
     (a ++ b ++ c ++ d ++ e).all (fun x => x == 'f' || x == 'F'))
  | _ => false

/-! ## Controllers (src/src/controllers.ts) -/

/-- `getGadget(id)`: `db.select().from(gadgets).where(eq(gadgets.id, id))`. -/
def getGadget (id : String) (store : Store) : List Gadget :=
  store.filter (fun g => g.id == id)

/-- `getGadgetsByStatus(status)`: select rows whose status equals the
argument (exact string equality, as `eq` on the varchar column). -/
def getGadgetsByStatus (status : String) (store : Store) : List Gadget :=
  store.filter (fun g => g.status == status)

/-- `getGadgets()`: select all rows. -/
def getGadgets (store : Store) : List Gadget :=
  store

/-- `createGadget(name, status)`: insert a row.  The uuid primary key is
generated by the database (`defaultRandom()`), modelled as the explicit
argument `newId`. -/
def createGadget (newId name status : String) (store : Store) : Store :=
  store ++ [⟨newId, name, status⟩]

/-- `updateGadget(id, name?, status?)`: if `name` is truthy, set the name
of every row matching `id`; otherwise set the status.  Always returns
`{ ok: true }` — there is no existence check.  (In the else branch the
source writes `set({ status })`; every call site of this model supplies a
present status there, so an absent one leaves the row unchanged.) -/
def updateGadget (id : String) (name? status? : Option String)
    (store : Store) : Store × Bool :=
  if jsTruthy name? then
    (store.map (fun g => if g.id == id then { g with name := name?.getD "" } else g),
     true)
  else
    (store.map (fun g =>
       if g.id == id then { g with status := status?.getD g.status } else g),
     true)

/-- `decommissionGadget(id)` from src/src/controllers.ts lines 54-75:
UUID syntax check, then existence check, then already-Decommissioned
guard, then status update. -/
def decommissionGadget (id : String) (store : Store) : Store × OpResult :=
  if !isValidUUID id then
    (store, ⟨false, "Wrong UUID was provided"⟩)
  else
    match store.filter (fun g => g.id == id) with
    | [] => (store, ⟨false, "No gadget with this UUID was found"⟩)
    | g :: _ =>
      if g.status == "Decommissioned" then
        (store, ⟨false, "Gadget was already Decommissioned"⟩)
      else
        (store.map (fun g =>
           if g.id == id then { g with status := "Decommissioned" } else g),
         ⟨true, "Gadget was Decommissioned successfully"⟩)

/-- `destroyGadget(id)` from src/src/controllers.ts lines 77-99: same
shape as decommission with the `Destroyed` status and its messages. -/
def destroyGadget (id : String) (store : Store) : Store × OpResult :=
  if !isValidUUID id then
    (store, ⟨false, "Wrong UUID was provided"⟩)
  else
    match store.filter (fun g => g.id == id) with
    | [] => (store, ⟨false, "There is no gadget to destroy"⟩)
    | g :: _ =>
      if g.status == "Destroyed" then
        (store, ⟨false, "Gadget was already destroyed"⟩)
      else
        (store.map (fun g =>
           if g.id == id then { g with status := "Destroyed" } else g),
         ⟨true, "Gadget is destroyed successfully"⟩)

/-- `createUser(username, password)`: duplicate-username check, then
insert.  The stored `password` is the (already hashed) string the handler
passes in. -/
def createUser (username password : String) (users : List UserRec) :
    List UserRec × OpResult :=
  if (users.filter (fun u => u.username == username)).length != 0 then
    (users, ⟨false, "This username is not empty"⟩)
  else
    (users ++ [⟨username, password⟩], ⟨true, "User is created successfully"⟩)

/-- Modelled from the spec: the `bcryptjs` library (not part of src/) —
a salted one-way hash; `compare(p, h)` succeeds exactly when `h` is the
hash of `p`.  The hash is modelled as an injective tagging of the
plaintext; only the compare/hash round-trip matters to the claims. -/
def bcryptHash (pw : String) : String :=
  "$2a$10$" ++ pw

/-- Modelled from the spec: `bcryptjs.compare(password, storedHash)`. -/
def bcryptCompare (pw stored : String) : Bool :=
  stored == bcryptHash pw

/-- `loginUser(username, password)` from src/src/controllers.ts lines
118-135: unknown-username check, then bcrypt comparison against the first
matching row.  Note the two failure messages are distinct strings. -/
def loginUser (username password : String) (users : List UserRec) : OpResult :=
  match users.filter (fun u => u.username == username) with
  | [] => ⟨false, "This user doesn\x27t exist"⟩
  | u :: _ =>
    if !bcryptCompare password u.password then
      ⟨false, "The password is wrong"⟩
    else
      ⟨true, "The user logged in."⟩

/-! ## Token model -/

/-- Modelled from the spec: a token produced by the `jsonwebtoken` library
(not part of src/): a signed payload carrying the username, the issuance
time, the expiry time (issuance plus `expiresIn` seconds) and the signing
key. -/
structure Token where
  username : String
  iat : Nat
  exp : Nat
  key : String
deriving DecidableEq

/-- Modelled from the spec: `jwt.sign({username}, key, {expiresIn})` at
issuance time `iat` (seconds). -/
def jwtSign (username key : String) (iat expiresIn : Nat) : Token :=
  ⟨username, iat, iat + expiresIn, key⟩

/-- Modelled from the spec: `jwt.verify(token, key)` at clock time `now`:
succeeds with the embedded username exactly when the signing key matches
and the token is not yet expired (`now < exp`); otherwise it fails
(signature mismatch or expiry — both rendered as an invalid token). -/
def jwtVerify (t : Token) (key : String) (now : Nat) : Option String :=
  if t.key == key && decide (now < t.exp) then some t.username else none

/-! ## Handlers (src/src/handlers.ts)

A handler is modelled as the list of responses it attempts to emit, in
order; the head is the one the client sees.  `Resp` carries the HTTP
status, the `message` field and the `data` field of the JSON envelope
(gadget lists here; the login route has its own response type carrying the
token). -/

/-- A JSON response attempt: HTTP status code, envelope `message`,
envelope `data` as a gadget list. -/
structure Resp where
  status : Nat
  message : String
  data : List Gadget
deriving DecidableEq

/-- A response of the register/login routes: HTTP status, message, and
the token when one is issued. -/
structure AuthResp where
  status : Nat
  message : String
  token : Option Token
deriving DecidableEq

/-- `registerUser` (src/src/handlers.ts lines 28-73).  The guard is
`if (!req.body.username && !req.body.password)` — it fires only when BOTH
fields are missing/empty, and then returns.  Otherwise the password is
bcrypt-hashed and `createUser` runs.  A present-but-empty username is
inserted as the empty string. -/
def registerUser (username? password? : Option String)
    (users : List UserRec) : List UserRec × List AuthResp :=
  if !jsTruthy username? && !jsTruthy password? then
    (users, [⟨400, "Username or Password is missing in body.", none⟩])
  else
    let hashed := bcryptHash (password?.getD "")
    let r := createUser (username?.getD "") hashed users
    if !r.2.ok then
      (r.1, [⟨400, r.2.message, none⟩])
    else
      (r.1, [⟨201, r.2.message, none⟩])

/-- `verifyLoginUser` (src/src/handlers.ts lines 76-124): missing-body
guard (both fields falsy), then `loginUser`; on success, sign a token for
the submitted username with `expiresIn = 60*60*24*7` seconds and answer
201 with the token in `data`. -/
def verifyLoginUser (username? password? : Option String)
    (users : List UserRec) (key : String) (iat : Nat) : List AuthResp :=
  if !jsTruthy username? && !jsTruthy password? then
    [⟨400, "Username or Password is missing in body.", none⟩]
  else
    let r := loginUser (username?.getD "") (password?.getD "") users
    if !r.ok then
      [⟨400, r.message, none⟩]
    else
      [⟨201, r.message,
        some (jwtSign (username?.getD "") key iat (60 * 60 * 24 * 7))⟩]

/-- The `validStatuses` set of `getGadgetsRoute`. -/
def validStatuses : List String :=
  ["Available", "Deployed", "Destroyed", "Decommissioned"]

/-- `getGadgetsRoute` (src/src/handlers.ts lines 127-190).  None of the
error branches `return`, so the handler keeps attempting responses: the
id branch, then (when a status query is present and truthy) the
capitalization check, the membership check and the filtered result, then
the unconditional full listing. -/
def getGadgetsRoute (id? status? : Option String) (store : Store) :
    List Resp :=
  (if jsTruthy id? then [⟨200, "", getGadget (id?.getD "") store⟩] else []) ++
  (match status? with
   | none => []
   | some st =>
     if st == "" then []
     else
       (if !isCapitalized st then [⟨400, "Status must be capitalized", []⟩]
        else []) ++
       (if !validStatuses.contains st then
          [⟨400, "Given status does not exist", []⟩]
        else []) ++
       [⟨200, "", getGadgetsByStatus st store⟩]) ++
  [⟨200, "", getGadgets store⟩]

/-- `createGadgetRoute` (src/src/handlers.ts lines 193-224).  The
missing-field branch does not `return`, so the insert and the success
response happen regardless; the inserted status is `capitalize` of the
submitted one, with no membership check against the four valid values.
(`name` and `status` are taken as present strings here; a truly absent
field makes the JS throw inside `capitalize`/the insert before any row is
written, a path no theorem below depends on.) -/
def createGadgetRoute (name status : String) (newId : String)
    (store : Store) : Store × List Resp :=
  let errs :=
    if name == "" || status == "" then
      [⟨400, "Body is missing status or name parameter.", []⟩]
    else []
  (createGadget newId name (capitalize status) store,
   errs ++ [⟨200, "Gadget is created successfully", []⟩])

/-- `updateGadgetRoute` (src/src/handlers.ts lines 227-309), the
`params_id` path: missing-body guard (no `return`), then
`updateGadget(params_id, name ? name : capitalize(status))` — the single
second argument lands in `updateGadget`'s `name` parameter, and the
`status` parameter is never passed.  (`capitalize` of an absent status,
reachable only with both fields missing, is modelled as the empty
string.) -/
def updateGadgetRoute (params_id : String) (name? status? : Option String)
    (store : Store) : Store × List Resp :=
  let errs :=
    if !jsTruthy name? && !jsTruthy status? then
      [⟨400, "Body is missing status and name parameter.", []⟩]
    else []
  let arg := if jsTruthy name? then name?.getD ""
             else capitalize (status?.getD "")
  let upd := updateGadget params_id (some arg) none store
  if upd.2 then
    (upd.1, errs ++ [⟨200, "Gadget was updated successfully.", []⟩])
  else
    (upd.1, errs ++ [⟨422, "Unspecified error occured.", []⟩])

/-! ## Guarded lifecycle operations as a transition system (for the
terminal-status invariant) -/

/-- One invocation of a guarded lifecycle entry point: `decommission` or
`destroy` on some id. -/
inductive LifeOp where
  | dec (id : String)
  | des (id : String)

/-- The store after one guarded operation. -/
def applyLifeOp (op : LifeOp) (store : Store) : Store :=
  match op with
  | .dec id => (decommissionGadget id store).1
  | .des id => (destroyGadget id store).1

/-- The store after a sequence of guarded operations, first op first. -/
def applyLifeOps (ops : List LifeOp) (store : Store) : Store :=
  match ops with
  | [] => store
  | op :: rest => applyLifeOps rest (applyLifeOp op store)

/-- The terminal statuses of the lifecycle. -/
def isTerminal (st : String) : Bool :=
  st == "Destroyed" || st == "Decommissioned"

/-! ## Helper lemmas -/

/-- A conditional per-row update over a store with no row matching `id`
leaves the store unchanged. -/
theorem map_update_of_not_found (id : String) (upd : Gadget → Gadget) :
    ∀ store : Store, store.filter (fun g => g.id == id) = [] →
      store.map (fun g => if g.id == id then upd g else g) = store := by
  intro store
  induction store with
  | nil => intro _; rfl
  | cons a l ih =>
    intro h
    rw [List.filter_cons] at h
    by_cases ha : (a.id == id) = true
    · rw [if_pos ha] at h
      exact absurd h (by simp)
    · rw [if_neg ha] at h
      simp only [List.map_cons, if_neg ha, ih h]

/-- A per-row status update commutes with filtering on the id: the rows
matching `id` after the update are the updated rows matching `id`
before it. -/
theorem filter_statusMap (id newSt : String) (store : Store) :
    (store.map (fun g =>
        if g.id == id then { g with status := newSt } else g)).filter
      (fun g => g.id == id)
      = (store.filter (fun g => g.id == id)).map (fun g =>
          if g.id == id then { g with status := newSt } else g) := by
  rw [List.filter_map]
  congr 1
  apply List.filter_congr
  intro g _
  simp only [Function.comp_apply]
  by_cases he : g.id = id
  · simp [he]
  · simp [he]

/-! ## C1 -/

/-- C1 counterexample: the claim that the two login failure kinds render
as the same externally visible message is false — with "alice"
registered, a wrong password for "alice" yields "The password is wrong"
while an unregistered username yields a different message. -/
theorem login_messages_differ_cex :
    (loginUser "alice" "wrong" [⟨"alice", bcryptHash "pw"⟩]).message
      ≠ (loginUser "bob_never_registered" "x"
          [⟨"alice", bcryptHash "pw"⟩]).message := by
  decide

/-- C1 (amended): the two failure kinds ARE distinguishable from the
returned message — for every credential store, a login with an existing
username and a failing password comparison returns the message "The
password is wrong", while a login with an absent username returns the
distinct message "This user doesn\x27t exist". -/
theorem login_failure_messages_distinct (users : List UserRec)
    (u1 p1 u2 p2 : String) (r : UserRec) (rest : List UserRec)
    (h1 : users.filter (fun u => u.username == u1) = r :: rest)
    (hpw : bcryptCompare p1 r.password = false)
    (h2 : users.filter (fun u => u.username == u2) = []) :
    loginUser u1 p1 users = ⟨false, "The password is wrong"⟩ ∧
    loginUser u2 p2 users = ⟨false, "This user doesn\x27t exist"⟩ := by
  constructor
  · simp only [loginUser, h1, hpw]
    rfl
  · simp only [loginUser, h2]

/-- Witness for the amended C1 theorem at a concrete store. -/
theorem login_failure_messages_distinct_witness :
    loginUser "alice" "wrong" [⟨"alice", bcryptHash "pw"⟩]
      = ⟨false, "The password is wrong"⟩ ∧
    loginUser "bob_never_registered" "x" [⟨"alice", bcryptHash "pw"⟩]
      = ⟨false, "This user doesn\x27t exist"⟩ :=
  login_failure_messages_distinct [⟨"alice", bcryptHash "pw"⟩]
    "alice" "wrong" "bob_never_registered" "x"
    ⟨"alice", bcryptHash "pw"⟩ [] (by decide) (by decide) (by decide)

/-! ## C2 -/

/-- C2 counterexample: the claim that the PATCH update path returns a
NotFound failure on a nonexistent id is false — on the empty store both
the route (here renaming id "x") and the direct status update report
success, with no NotFound of any kind. -/
theorem update_nonexistent_success_cex :
    updateGadgetRoute "x" (some "NewName") (some "Deployed") ([] : Store)
      = ([], [⟨200, "Gadget was updated successfully.", []⟩]) ∧
    updateGadget "x" none (some "Deployed") ([] : Store) = ([], true) := by
  decide

/-- C2 (amended): the PATCH update path performs no existence check — for
every id with no matching gadget, `updateGadget` reports success
(`{ok: true}`) and the route renders 200 "Gadget was updated
successfully."; the store is unchanged. -/
theorem update_nonexistent_no_check (id : String)
    (name? status? : Option String) (store : Store)
    (h : store.filter (fun g => g.id == id) = []) :
    updateGadget id name? status? store = (store, true) ∧
    ((jsTruthy name? || jsTruthy status?) = true →
      updateGadgetRoute id name? status? store
        = (store, [⟨200, "Gadget was updated successfully.", []⟩])) := by
  have hupd : ∀ n? s? : Option String,
      updateGadget id n? s? store = (store, true) := by
    intro n? s?
    unfold updateGadget
    by_cases hn : jsTruthy n? = true
    · rw [if_pos hn, map_update_of_not_found id _ store h]
    · rw [if_neg hn, map_update_of_not_found id _ store h]
  refine ⟨hupd name? status?, fun htr => ?_⟩
  have herrs : (!jsTruthy name? && !jsTruthy status?) = false := by
    cases hn : jsTruthy name? <;> cases hs : jsTruthy status? <;>
      simp_all
  simp only [updateGadgetRoute, herrs, hupd]
  simp

/-- Witness for the amended C2 theorem at a concrete input. -/
theorem update_nonexistent_no_check_witness :
    updateGadget "x" (some "NewName") none ([] : Store) = ([], true) ∧
    ((jsTruthy (some "NewName") || jsTruthy none) = true →
      updateGadgetRoute "x" (some "NewName") none ([] : Store)
        = ([], [⟨200, "Gadget was updated successfully.", []⟩])) :=
  update_nonexistent_no_check "x" (some "NewName") none [] (by decide)

/-! ## C3 -/

/-- C3 counterexample: the claim that a lowercase status succeeds and
returns the same set as its canonical capitalization is false — with one
Deployed gadget in the store, the externally visible (first) response for
`?status=deployed` is 400 "Status must be capitalized" with no data,
while for `?status=Deployed` it is 200 with the gadget. -/
theorem listByStatus_lowercase_rejected_cex :
    (getGadgetsRoute none (some "deployed")
        [⟨"123e4567-e89b-12d3-a456-426614174000", "Hook", "Deployed"⟩]).head?
      = some ⟨400, "Status must be capitalized", []⟩ ∧
    (getGadgetsRoute none (some "Deployed")
        [⟨"123e4567-e89b-12d3-a456-426614174000", "Hook", "Deployed"⟩]).head?
      = some ⟨200, "",
          [⟨"123e4567-e89b-12d3-a456-426614174000", "Hook", "Deployed"⟩]⟩ := by
  decide

/-- C3 (amended): status input is not normalized — for every store and
non-empty status string, a non-capitalized status is answered first with
400 "Status must be capitalized"; a capitalized status outside the four
enumerated values is answered first with 400 "Given status does not
exist"; and only a capitalized status among the four values is answered
with the exact-match filter of the store. -/
theorem listByStatus_requires_capitalized (st : String) (store : Store)
    (hne : st ≠ "") :
    (isCapitalized st = false →
      (getGadgetsRoute none (some st) store).head?
        = some ⟨400, "Status must be capitalized", []⟩) ∧
    (isCapitalized st = true → validStatuses.contains st = false →
      (getGadgetsRoute none (some st) store).head?
        = some ⟨400, "Given status does not exist", []⟩) ∧
    (isCapitalized st = true → validStatuses.contains st = true →
      (getGadgetsRoute none (some st) store).head?
        = some ⟨200, "", getGadgetsByStatus st store⟩) := by
  have hne' : (st == "") = false := by simpa using hne
  refine ⟨fun hc => ?_, fun hc hm => ?_, fun hc hm => ?_⟩
  · simp [getGadgetsRoute, jsTruthy, hne', hc]
  · have hm' : ¬ st ∈ validStatuses := by simpa using hm
    simp [getGadgetsRoute, jsTruthy, hne', hc, hm']
  · have hm' : st ∈ validStatuses := by simpa using hm
    simp [getGadgetsRoute, jsTruthy, hne', hc, hm']

/-- Witness for the amended C3 theorem: "deployed" is rejected as
non-capitalized, "Deployed" is served the exact filter. -/
theorem listByStatus_requires_capitalized_witness :
    (isCapitalized "deployed" = false →
      (getGadgetsRoute none (some "deployed") ([] : Store)).head?
        = some ⟨400, "Status must be capitalized", []⟩) ∧
    (isCapitalized "deployed" = true →
      validStatuses.contains "deployed" = false →
      (getGadgetsRoute none (some "deployed") ([] : Store)).head?
        = some ⟨400, "Given status does not exist", []⟩) ∧
    (isCapitalized "deployed" = true →
      validStatuses.contains "deployed" = true →
      (getGadgetsRoute none (some "deployed") ([] : Store)).head?
        = some ⟨200, "", getGadgetsByStatus "deployed" ([] : Store)⟩) :=
  listByStatus_requires_capitalized "deployed" [] (by decide)

/-! ## C4 -/

/-- C4: the create path validates nothing it claims to — submitting the
non-enumerated status "bogus" inserts a gadget with status "Bogus" and
answers success, and submitting an empty name emits the 400 response but
(missing `return`) still inserts the gadget and then also answers
success. -/
theorem create_invalid_input_inserts :
    createGadgetRoute "Widget" "bogus" "u1" ([] : Store)
      = ([⟨"u1", "Widget", "Bogus"⟩],
         [⟨200, "Gadget is created successfully", []⟩]) ∧
    createGadgetRoute "" "available" "u2" ([] : Store)
      = ([⟨"u2", "", "Available"⟩],
         [⟨400, "Body is missing status or name parameter.", []⟩,
          ⟨200, "Gadget is created successfully", []⟩]) := by
  decide

/-! ## C5 -/

/-- C5: `decommissionGadget` checks in order — an id failing the UUID
syntax check is rejected with "Wrong UUID was provided"; a valid UUID
with no matching gadget is rejected with "No gadget with this UUID was
found"; a matching gadget already Decommissioned is rejected with
"Gadget was already Decommissioned", the store unchanged; otherwise the
matching rows are set to Decommissioned and the call succeeds — and
hence a first call on a not-yet-Decommissioned (e.g. Available) gadget
succeeds while a second call on the same id is rejected, leaving the
store as the first call left it. -/
theorem decommission_checks_in_order (id : String) (store : Store) :
    (isValidUUID id = false →
       decommissionGadget id store
         = (store, ⟨false, "Wrong UUID was provided"⟩)) ∧
    (isValidUUID id = true → store.filter (fun g => g.id == id) = [] →
       decommissionGadget id store
         = (store, ⟨false, "No gadget with this UUID was found"⟩)) ∧
    (∀ g rest, isValidUUID id = true →
       store.filter (fun g => g.id == id) = g :: rest →
       g.status = "Decommissioned" →
       decommissionGadget id store
         = (store, ⟨false, "Gadget was already Decommissioned"⟩)) ∧
    (∀ g rest, isValidUUID id = true →
       store.filter (fun g => g.id == id) = g :: rest →
       g.status ≠ "Decommissioned" →
       decommissionGadget id store
         = (store.map (fun g =>
              if g.id == id then { g with status := "Decommissioned" } else g),
            ⟨true, "Gadget was Decommissioned successfully"⟩) ∧
       (decommissionGadget id (decommissionGadget id store).1).1
          = (decommissionGadget id store).1 ∧
       (decommissionGadget id (decommissionGadget id store).1).2
          = ⟨false, "Gadget was already Decommissioned"⟩) := by
  refine ⟨fun hv => by simp [decommissionGadget, hv],
    fun hv hf => by simp [decommissionGadget, hv, hf],
    fun g rest hv hf hst => by simp [decommissionGadget, hv, hf, hst],
    fun g rest hv hf hst => ?_⟩
  have hst' : (g.status == "Decommissioned") = false := by simpa using hst
  have hfirst : decommissionGadget id store
      = (store.map (fun g =>
           if g.id == id then { g with status := "Decommissioned" } else g),
         ⟨true, "Gadget was Decommissioned successfully"⟩) := by
    simp [decommissionGadget, hv, hf, hst']
  have hmem : g ∈ store.filter (fun g => g.id == id) := by
    rw [hf]; exact List.mem_cons_self g rest
  have hid : (g.id == id) = true := (List.mem_filter.mp hmem).2
  have hfilter1 : (store.map (fun g =>
        if g.id == id then { g with status := "Decommissioned" } else g)).filter
          (fun g => g.id == id)
      = ({ g with status := "Decommissioned" } : Gadget) ::
          rest.map (fun g =>
            if g.id == id then { g with status := "Decommissioned" } else g) := by
    rw [filter_statusMap, hf, List.map_cons]
    simp [hid]
  have hsecond : decommissionGadget id (store.map (fun g =>
        if g.id == id then { g with status := "Decommissioned" } else g))
      = (store.map (fun g =>
           if g.id == id then { g with status := "Decommissioned" } else g),
         ⟨false, "Gadget was already Decommissioned"⟩) := by
    unfold decommissionGadget
    rw [if_neg (by simp [hv]), hfilter1]
    rfl
  have h1 : (decommissionGadget id store).1
      = store.map (fun g =>
          if g.id == id then { g with status := "Decommissioned" } else g) := by
    rw [hfirst]
  refine ⟨hfirst, ?_, ?_⟩
  · rw [h1, hsecond]
  · rw [h1, hsecond]

/-- Witness for C5: on a store holding one Available gadget under a valid
UUID, the first decommission succeeds and the second is rejected. -/
theorem decommission_checks_in_order_witness :
    decommissionGadget "123e4567-e89b-12d3-a456-426614174000"
        ([⟨"123e4567-e89b-12d3-a456-426614174000", "Hook", "Available"⟩] : Store)
      = (([⟨"123e4567-e89b-12d3-a456-426614174000", "Hook", "Available"⟩] :
            Store).map (fun g =>
             if g.id == "123e4567-e89b-12d3-a456-426614174000" then
               { g with status := "Decommissioned" }
             else g),
         ⟨true, "Gadget was Decommissioned successfully"⟩) ∧
    (decommissionGadget "123e4567-e89b-12d3-a456-426614174000"
        (decommissionGadget "123e4567-e89b-12d3-a456-426614174000"
          ([⟨"123e4567-e89b-12d3-a456-426614174000", "Hook", "Available"⟩] :
            Store)).1).1
      = (decommissionGadget "123e4567-e89b-12d3-a456-426614174000"
          ([⟨"123e4567-e89b-12d3-a456-426614174000", "Hook", "Available"⟩] :
            Store)).1 ∧
    (decommissionGadget "123e4567-e89b-12d3-a456-426614174000"
        (decommissionGadget "123e4567-e89b-12d3-a456-426614174000"
          ([⟨"123e4567-e89b-12d3-a456-426614174000", "Hook", "Available"⟩] :
            Store)).1).2
      = ⟨false, "Gadget was already Decommissioned"⟩ :=
  (decommission_checks_in_order "123e4567-e89b-12d3-a456-426614174000"
      [⟨"123e4567-e89b-12d3-a456-426614174000", "Hook", "Available"⟩]).2.2.2
    ⟨"123e4567-e89b-12d3-a456-426614174000", "Hook", "Available"⟩ []
    (by decide) (by decide) (by decide)

/-! ## C6 -/

/-- C6: for every id with no matching gadget in the store, `destroyGadget`
fails (never `ok`), leaves the store exactly as it was, and — when the id
passes the UUID syntax check that precedes the existence check — fails
with the not-found message "There is no gadget to destroy". -/
theorem destroy_nonexistent_notfound (id : String) (store : Store)
    (h : store.filter (fun g => g.id == id) = []) :
    (destroyGadget id store).1 = store ∧
    (destroyGadget id store).2.ok = false ∧
    (isValidUUID id = true →
      destroyGadget id store
        = (store, ⟨false, "There is no gadget to destroy"⟩)) := by
  unfold destroyGadget
  by_cases hv : isValidUUID id = true
  · simp [hv, h]
  · simp only [Bool.not_eq_true] at hv
    simp [hv]

/-- Witness for C6 at a concrete valid-UUID id and the empty store. -/
theorem destroy_nonexistent_notfound_witness :
    (destroyGadget "123e4567-e89b-12d3-a456-426614174000" ([] : Store)).1
      = [] ∧
    (destroyGadget "123e4567-e89b-12d3-a456-426614174000"
      ([] : Store)).2.ok = false ∧
    (isValidUUID "123e4567-e89b-12d3-a456-426614174000" = true →
      destroyGadget "123e4567-e89b-12d3-a456-426614174000" ([] : Store)
        = ([], ⟨false, "There is no gadget to destroy"⟩)) :=
  destroy_nonexistent_notfound "123e4567-e89b-12d3-a456-426614174000" []
    (by decide)

/-! ## C7 -/

/-- The store `decommissionGadget` leaves behind is either unchanged or
the per-row Decommissioned update. -/
theorem decommissionGadget_fst_cases (id : String) (store : Store) :
    (decommissionGadget id store).1 = store ∨
    (decommissionGadget id store).1
      = store.map (fun g =>
          if g.id == id then { g with status := "Decommissioned" } else g) := by
  unfold decommissionGadget
  split
  · exact Or.inl rfl
  · split
    · exact Or.inl rfl
    · split
      · exact Or.inl rfl
      · exact Or.inr rfl

/-- The store `destroyGadget` leaves behind is either unchanged or the
per-row Destroyed update. -/
theorem destroyGadget_fst_cases (id : String) (store : Store) :
    (destroyGadget id store).1 = store ∨
    (destroyGadget id store).1
      = store.map (fun g =>
          if g.id == id then { g with status := "Destroyed" } else g) := by
  unfold destroyGadget
  split
  · exact Or.inl rfl
  · split
    · exact Or.inl rfl
    · split
      · exact Or.inl rfl
      · exact Or.inr rfl

/-- A per-row status update to a terminal status preserves each row's id
and keeps terminal rows terminal. -/
theorem terminal_preserved_map (id newSt : String)
    (hterm : isTerminal newSt = true) (store : Store) (i : Nat)
    (h : i < store.length)
    (h' : i < (store.map (fun g =>
        if g.id == id then { g with status := newSt } else g)).length) :
    ((store.map (fun g =>
        if g.id == id then { g with status := newSt } else g))[i]).id
      = (store[i]).id ∧
    (isTerminal (store[i]).status = true →
      isTerminal ((store.map (fun g =>
        if g.id == id then { g with status := newSt } else g))[i]).status
        = true) := by
  rw [List.getElem_map]
  by_cases hg : ((store[i]).id == id) = true
  · rw [if_pos hg]
    exact ⟨rfl, fun _ => hterm⟩
  · rw [if_neg hg]
    exact ⟨rfl, fun ht => ht⟩

/-- Any store that is either unchanged or a per-row terminal-status
update of `store` preserves length, ids and terminality row by row. -/
theorem step_preserves (id newSt : String) (store store' : Store)
    (hterm : isTerminal newSt = true)
    (hc : store' = store ∨
      store' = store.map (fun g =>
        if g.id == id then { g with status := newSt } else g)) :
    store'.length = store.length ∧
    ∀ (i : Nat) (h : i < store.length) (h' : i < store'.length),
      (store'[i]).id = (store[i]).id ∧
      (isTerminal (store[i]).status = true →
        isTerminal (store'[i]).status = true) := by
  rcases hc with rfl | rfl
  · exact ⟨rfl, fun i h h' => ⟨rfl, fun ht => ht⟩⟩
  · exact ⟨List.length_map _ _,
      fun i h h' => terminal_preserved_map id newSt hterm store i h h'⟩

/-- One guarded lifecycle operation preserves the store's length, every
row's id, and the terminality of every row's status. -/
theorem applyLifeOp_preserves (op : LifeOp) (store : Store) :
    (applyLifeOp op store).length = store.length ∧
    ∀ (i : Nat) (h : i < store.length)
      (h' : i < (applyLifeOp op store).length),
      ((applyLifeOp op store)[i]).id = (store[i]).id ∧
      (isTerminal (store[i]).status = true →
        isTerminal ((applyLifeOp op store)[i]).status = true) := by
  cases op with
  | dec id =>
    exact step_preserves id "Decommissioned" store _ (by decide)
      (decommissionGadget_fst_cases id store)
  | des id =>
    exact step_preserves id "Destroyed" store _ (by decide)
      (destroyGadget_fst_cases id store)

/-- C7: across every sequence of guarded lifecycle operations (any mix of
decommission and destroy on any ids), the store keeps its length, every
row keeps its id, and a row whose status is terminal (Destroyed or
Decommissioned) keeps a terminal status — no guarded operation ever
transitions a gadget out of the terminal set. -/
theorem guarded_ops_preserve_terminal (ops : List LifeOp) :
    ∀ (store : Store) (i : Nat) (h : i < store.length),
      (applyLifeOps ops store).length = store.length ∧
      ∀ h' : i < (applyLifeOps ops store).length,
        ((applyLifeOps ops store)[i]).id = (store[i]).id ∧
        (isTerminal (store[i]).status = true →
          isTerminal ((applyLifeOps ops store)[i]).status = true) := by
  induction ops with
  | nil =>
    intro store i h
    exact ⟨rfl, fun h' => ⟨rfl, fun ht => ht⟩⟩
  | cons op rest ih =>
    intro store i h
    have hstep := applyLifeOp_preserves op store
    have h1 : i < (applyLifeOp op store).length := by
      rw [hstep.1]; exact h
    have ihr := ih (applyLifeOp op store) i h1
    refine ⟨?_, fun h' => ?_⟩
    · calc (applyLifeOps (op :: rest) store).length
          = (applyLifeOps rest (applyLifeOp op store)).length := rfl
        _ = (applyLifeOp op store).length := ihr.1
        _ = store.length := hstep.1
    · have h'' : i < (applyLifeOps rest (applyLifeOp op store)).length := h'
      have hrec := ihr.2 h''
      have hstep2 := hstep.2 i h h1
      exact ⟨hrec.1.trans hstep2.1, fun ht => hrec.2 (hstep2.2 ht)⟩

/-- Witness for C7: destroying an already-Decommissioned gadget keeps it
in the terminal set (it becomes Destroyed). -/
theorem guarded_ops_preserve_terminal_witness :
    (applyLifeOps [LifeOp.des "123e4567-e89b-12d3-a456-426614174000"]
        ([⟨"123e4567-e89b-12d3-a456-426614174000", "Hook",
            "Decommissioned"⟩] : Store)).map (fun g => isTerminal g.status)
      = [true] := by
  have hmain := guarded_ops_preserve_terminal
      [LifeOp.des "123e4567-e89b-12d3-a456-426614174000"]
      [⟨"123e4567-e89b-12d3-a456-426614174000", "Hook", "Decommissioned"⟩]
      0 (by decide)
  have h' : 0 < (applyLifeOps
      [LifeOp.des "123e4567-e89b-12d3-a456-426614174000"]
      ([⟨"123e4567-e89b-12d3-a456-426614174000", "Hook",
          "Decommissioned"⟩] : Store)).length := by
    rw [hmain.1]; decide
  have hterm := (hmain.2 h').2 (by decide)
  decide

/-! ## C8 -/

/-- C8: registration does not reject a request in which only one of the
two fields is empty — the guard `!username && !password` fires only when
both are missing, so an empty username with a non-empty password creates
a user record with the empty username (the code contradicting its own
"Username or Password is missing" message). -/
theorem register_empty_username_creates_user :
    registerUser (some "") (some "secret") []
      = ([⟨"", bcryptHash "secret"⟩],
         [⟨201, "User is created successfully", none⟩]) := by
  decide

/-! ## C9 -/

/-- C9: for a registered user whose stored hash matches the submitted
password, login answers 201 with a signed token carrying the submitted
username and expiring exactly `60*60*24*7` seconds (7 days) after
issuance; verifying that token against the same key succeeds with that
username at every clock time before the expiry boundary and fails at the
boundary and at every time after it. -/
theorem login_token_roundtrip (users : List UserRec)
    (username password key : String) (iat : Nat)
    (r : UserRec) (rest : List UserRec)
    (hne : username ≠ "" ∨ password ≠ "")
    (hfind : users.filter (fun u => u.username == username) = r :: rest)
    (hpw : r.password = bcryptHash password) :
    verifyLoginUser (some username) (some password) users key iat
      = [⟨201, "The user logged in.",
          some ⟨username, iat, iat + 60 * 60 * 24 * 7, key⟩⟩] ∧
    (∀ now, now < iat + 60 * 60 * 24 * 7 →
      jwtVerify ⟨username, iat, iat + 60 * 60 * 24 * 7, key⟩ key now
        = some username) ∧
    (∀ now, iat + 60 * 60 * 24 * 7 ≤ now →
      jwtVerify ⟨username, iat, iat + 60 * 60 * 24 * 7, key⟩ key now
        = none) := by
  have hguard : (!jsTruthy (some username) && !jsTruthy (some password))
      = false := by
    rcases hne with hu | hp
    · simp [jsTruthy, hu]
    · simp [jsTruthy, hp]
  have hcmp : bcryptCompare password r.password = true := by
    rw [hpw]; simp [bcryptCompare]
  have hlogin : loginUser username password users
      = ⟨true, "The user logged in."⟩ := by
    unfold loginUser
    rw [hfind]
    simp [hcmp]
  refine ⟨?_, fun now hlt => ?_, fun now hge => ?_⟩
  · simp only [verifyLoginUser, hguard, Option.getD_some, hlogin]
    simp [jwtSign]
  · simp [jwtVerify, hlt]
  · have hnl : ¬ now < iat + 60 * 60 * 24 * 7 := Nat.not_lt.mpr hge
    simp [jwtVerify, hnl]

/-- Witness for C9: alice logs in with her correct password; the issued
token verifies one second before the 7-day boundary and fails at it. -/
theorem login_token_roundtrip_witness :
    verifyLoginUser (some "alice") (some "pw")
        [⟨"alice", bcryptHash "pw"⟩] "k" 0
      = [⟨201, "The user logged in.",
          some ⟨"alice", 0, 0 + 60 * 60 * 24 * 7, "k"⟩⟩] ∧
    jwtVerify ⟨"alice", 0, 0 + 60 * 60 * 24 * 7, "k"⟩ "k" 604799
      = some "alice" ∧
    jwtVerify ⟨"alice", 0, 0 + 60 * 60 * 24 * 7, "k"⟩ "k" 604800
      = none := by
  have h := login_token_roundtrip [⟨"alice", bcryptHash "pw"⟩]
    "alice" "pw" "k" 0 ⟨"alice", bcryptHash "pw"⟩ []
    (Or.inl (by decide)) (by decide) (by decide)
  exact ⟨h.1, h.2.1 604799 (by decide), h.2.2 604800 (by decide)⟩

/-! ## C10 -/

/-- C10: when the PATCH path receives both a (non-empty) name and a
status, only the name is updated — `updateGadget`'s result does not
depend on its status argument, the route rewrites exactly the name field
of the matching rows, and every gadget's status after the call equals its
status before the call. -/
theorem patch_with_name_ignores_status (pid n s : String) (store : Store)
    (hn : n ≠ "") :
    (∀ st? : Option String,
      updateGadget pid (some n) st? store
        = updateGadget pid (some n) none store) ∧
    updateGadgetRoute pid (some n) (some s) store
      = (store.map (fun g => if g.id == pid then { g with name := n } else g),
         [⟨200, "Gadget was updated successfully.", []⟩]) ∧
    (updateGadgetRoute pid (some n) (some s) store).1.map (fun g => g.status)
      = store.map (fun g => g.status) := by
  have htr : jsTruthy (some n) = true := by simpa [jsTruthy] using hn
  have hupd : ∀ st? : Option String,
      updateGadget pid (some n) st? store
        = (store.map (fun g =>
             if g.id == pid then { g with name := n } else g), true) := by
    intro st?
    unfold updateGadget
    rw [if_pos htr]
    rfl
  have hroute : updateGadgetRoute pid (some n) (some s) store
      = (store.map (fun g => if g.id == pid then { g with name := n } else g),
         [⟨200, "Gadget was updated successfully.", []⟩]) := by
    simp only [updateGadgetRoute, htr, Option.getD_some, if_true, hupd]
    simp
  refine ⟨fun st? => by rw [hupd st?, hupd none], hroute, ?_⟩
  rw [hroute]
  simp only [List.map_map]
  apply List.map_congr_left
  intro g _
  by_cases hg : (g.id == pid) = true
  · simp [Function.comp, hg]
  · simp [Function.comp, hg]

/-- Witness for C10 at a concrete store of one Available gadget. -/
theorem patch_with_name_ignores_status_witness :
    (∀ st? : Option String,
      updateGadget "u1" (some "NewName") st?
          ([⟨"u1", "Old", "Available"⟩] : Store)
        = updateGadget "u1" (some "NewName") none
            ([⟨"u1", "Old", "Available"⟩] : Store)) ∧
    updateGadgetRoute "u1" (some "NewName") (some "Deployed")
        ([⟨"u1", "Old", "Available"⟩] : Store)
      = (([⟨"u1", "Old", "Available"⟩] : Store).map (fun g =>
           if g.id == "u1" then { g with name := "NewName" } else g),
         [⟨200, "Gadget was updated successfully.", []⟩]) ∧
    (updateGadgetRoute "u1" (some "NewName") (some "Deployed")
        ([⟨"u1", "Old", "Available"⟩] : Store)).1.map (fun g => g.status)
      = ([⟨"u1", "Old", "Available"⟩] : Store).map (fun g => g.status) :=
  patch_with_name_ignores_status "u1" "NewName" "Deployed"
    [⟨"u1", "Old", "Available"⟩] (by decide)

end IMF
